import Mathlib

/-!
Verification of the UNICONNECT real-time layer (src/socket/socketHandler.js).

The development shallowly embeds the socket handler: JS objects become
association lists of string-keyed values, the `connectedUsers` Map becomes an
association list with JS `Map` semantics, socket.io rooms become a list of
(socketId, roomName) membership pairs, and each event handler becomes a Lean
function from server state (plus the sender's socket context) to the new state
and the list of outbound deliveries it emits.
-/

namespace Uniconnect

/-- A field value appearing in a socket payload: a string, a number
(timestamps are modelled as the server clock, a natural number), or the JS
undefined value produced by reading an absent property. -/
inductive Value where
  | vstr (s : String)
  | vnat (n : Nat)
  | vundefined
deriving DecidableEq, Repr

/-- A JS object: an ordered association list of string-keyed fields. -/
abbrev Obj := List (String × Value)

/-- Property read: first binding wins; a missing key yields none. -/
def objGet : Obj → String → Option Value
  | [], _ => none
  | p :: rest, k => if p.1 = k then some p.2 else objGet rest k

/-- Property read defaulting to undefined, as a JS expression such as
data.title evaluates. -/
def objGetD (o : Obj) (k : String) : Value := (objGet o k).getD .vundefined

/-- JS object spread followed by a field assignment: overwrite the field in
place if present, append it otherwise. -/
def objSet : Obj → String → Value → Obj
  | [], k, v => [(k, v)]
  | p :: rest, k, v => if p.1 = k then (k, v) :: rest else p :: objSet rest k v

/-- Stringification of a value inside a JS template literal. -/
def valStr : Value → String
  | .vstr s => s
  | .vnat n => toString n
  | .vundefined => "undefined"

/-- The identity attached to a socket by the authentication middleware:
the fields of the User document that the handler reads. -/
structure UserRec where
  userId : String
  name : String
  initials : String
  university : String
deriving DecidableEq, Repr

/-- A connectedUsers entry: socketId, user and connectedAt are written on
connection; status is added later by the status_update handler. -/
structure ConnRec where
  socketId : String
  user : UserRec
  connectedAt : Nat
  status : Option String
deriving DecidableEq, Repr

/-- An admitted live connection: its transport id and the authenticated user
captured in the handler closure. -/
structure Socket where
  id : String
  user : UserRec
deriving DecidableEq, Repr

/-- The connectedUsers Map, embedded as an association list. -/
abbrev Registry := List (String × ConnRec)

/-- Map.get: first binding for the key. -/
def mget : Registry → String → Option ConnRec
  | [], _ => none
  | p :: rest, k => if p.1 = k then some p.2 else mget rest k

/-- Map.set: overwrite the entry in place if the key is present, append it
otherwise. -/
def mset : Registry → String → ConnRec → Registry
  | [], k, v => [(k, v)]
  | p :: rest, k, v => if p.1 = k then (k, v) :: rest else p :: mset rest k v

/-- Map.delete: remove the entry for the key. -/
def mdel : Registry → String → Registry
  | [], _ => []
  | p :: rest, k => if p.1 = k then mdel rest k else p :: mdel rest k

/-- Number of registry entries stored under a key. -/
def countKey : Registry → String → Nat
  | [], _ => 0
  | p :: rest, k => (if p.1 = k then 1 else 0) + countKey rest k

/-- Room membership: the set of (socketId, roomName) associations held by the
transport. -/
abbrev Rooms := List (String × String)

/-- socket.join: idempotent addition of a membership pair. -/
def joinRoom (rs : Rooms) (sid room : String) : Rooms :=
  if (sid, room) ∈ rs then rs else (sid, room) :: rs

/-- socket.leave: drop the membership pair. -/
def leaveRoom : Rooms → String → String → Rooms
  | [], _, _ => []
  | p :: rest, sid, room =>
    if p = (sid, room) then leaveRoom rest sid room
    else p :: leaveRoom rest sid room

/-- One outbound event delivered to one socket. -/
structure Delivery where
  target : String
  event : String
  payload : Obj
deriving DecidableEq, Repr

/-- Server state of the real-time module: the connectedUsers map, the
transport's room memberships, and the live admitted connections. -/
structure ServerState where
  registry : Registry
  rooms : Rooms
  conns : List Socket
deriving DecidableEq, Repr

/-- socket.to(room).emit: deliver to every member of the room except the
sending socket. -/
def socketTo : Rooms → String → String → String → Obj → List Delivery
  | [], _, _, _, _ => []
  | p :: rest, sender, room, event, payload =>
    if p.2 = room ∧ p.1 ≠ sender then
      Delivery.mk p.1 event payload :: socketTo rest sender room event payload
    else socketTo rest sender room event payload

/-- io.to(room).emit: deliver to every member of the room, sender included. -/
def ioToRoom : Rooms → String → String → Obj → List Delivery
  | [], _, _, _ => []
  | p :: rest, room, event, payload =>
    if p.2 = room then Delivery.mk p.1 event payload :: ioToRoom rest room event payload
    else ioToRoom rest room event payload

/-- Whether a socket id belongs to a live connection. -/
def isLive (conns : List Socket) (sid : String) : Bool :=
  conns.any (fun c => c.id == sid)

/-- io.to(socketId).emit: deliver to the socket's personal room, which exists
exactly while the socket is connected. -/
def ioToSocket (conns : List Socket) (sid event : String) (payload : Obj) : List Delivery :=
  if isLive conns sid then [Delivery.mk sid event payload] else []

/-- io.emit: deliver to every live connection. -/
def ioEmit (conns : List Socket) (event : String) (payload : Obj) : List Delivery :=
  conns.map (fun c => Delivery.mk c.id event payload)

/-! ### The authentication middleware (io.use) -/

/-- Result of the io.use middleware: identity attached, or next(Error(e)). -/
inductive AuthResult where
  | ok (u : UserRec)
  | err (e : String)
deriving DecidableEq, Repr

/-- The io.use middleware. verify models jwt.verify (none = throw, some =
decoded userId); findById models the User.findById identity lookup. A missing
token and a token failing verification both produce the string
Authentication error; an identity that does not resolve produces User not
found. -/
def authMiddleware (verify : String → Option String) (findById : String → Option UserRec)
    (token : Option String) : AuthResult :=
  match token with
  | none => .err "Authentication error"
  | some t =>
    match verify t with
    | none => .err "Authentication error"
    | some uid =>
      match findById uid with
      | none => .err "User not found"
      | some u => .ok u

/-! ### Lifecycle: connection admission and the full handshake -/

/-- The body of the connection handler that runs state effects on admission:
write the connectedUsers entry, join the university room and the global room,
record the live connection. -/
def handleConnection (st : ServerState) (sock : Socket) (now : Nat) : ServerState :=
  { registry := mset st.registry sock.user.userId
      (ConnRec.mk sock.id sock.user now none)
    rooms := joinRoom (joinRoom st.rooms sock.id ("university:" ++ sock.user.university))
      sock.id "global"
    conns := sock :: st.conns }

/-- A whole handshake attempt: the middleware runs first; only on success is
the connection admitted and the connection handler run. A rejection returns
the error reason and leaves the state untouched. -/
def handshake (verify : String → Option String) (findById : String → Option UserRec)
    (st : ServerState) (sid : String) (token : Option String) (now : Nat) :
    ServerState × Option String :=
  match authMiddleware verify findById token with
  | .err e => (st, some e)
  | .ok u => (handleConnection st (Socket.mk sid u) now, none)

/-! ### Event handlers -/

/-- The outbound payload the new_question handler builds: the inbound data
spread, with author, authorInitial, university and timestamp stamped from the
authenticated sender and the server clock. -/
def questionPayload (u : UserRec) (now : Nat) (data : Obj) : Obj :=
  objSet (objSet (objSet (objSet data
    "author" (.vstr u.name))
    "authorInitial" (.vstr u.initials))
    "university" (.vstr u.university))
    "timestamp" (.vnat now)

/-- The question_trending payload the new_question handler builds. -/
def trendingPayload (u : UserRec) (data : Obj) : Obj :=
  [("questionId", objGetD data "id"), ("title", objGetD data "title"),
   ("university", .vstr u.university)]

/-- The outbound payload the new_answer handler builds. -/
def answerPayload (u : UserRec) (now : Nat) (data : Obj) : Obj :=
  objSet (objSet (objSet data
    "author" (.vstr u.name))
    "authorInitial" (.vstr u.initials))
    "timestamp" (.vnat now)

/-- The outbound payload the live_chat handler builds: only the message field
of the inbound data survives, with the sender stamp alongside it. -/
def chatPayload (u : UserRec) (now : Nat) (data : Obj) : Obj :=
  [("message", objGetD data "message"),
   ("author", .vstr u.name),
   ("authorInitial", .vstr u.initials),
   ("timestamp", .vnat now)]

/-- The new_question handler: broadcast the stamped question to the sender's
university room and a trending notice to the global room, both excluding the
sender. -/
def onNewQuestion (st : ServerState) (sock : Socket) (now : Nat) (data : Obj) :
    List Delivery :=
  socketTo st.rooms sock.id ("university:" ++ sock.user.university) "new_question"
    (questionPayload sock.user now data)
  ++ socketTo st.rooms sock.id "global" "question_trending"
    (trendingPayload sock.user data)

/-- The new_answer handler: broadcast the stamped answer to the room of the
question named in the payload, excluding the sender. -/
def onNewAnswer (st : ServerState) (sock : Socket) (now : Nat) (data : Obj) :
    List Delivery :=
  socketTo st.rooms sock.id ("question:" ++ valStr (objGetD data "questionId")) "new_answer"
    (answerPayload sock.user now data)

/-- The live_chat handler: broadcast the message to the AMA session room named
in the payload, excluding the sender. -/
def onLiveChat (st : ServerState) (sock : Socket) (now : Nat) (data : Obj) :
    List Delivery :=
  socketTo st.rooms sock.id ("ama:" ++ valStr (objGetD data "sessionId")) "live_chat"
    (chatPayload sock.user now data)

/-- The typing_start handler. -/
def onTypingStart (st : ServerState) (sock : Socket) (data : Obj) : List Delivery :=
  socketTo st.rooms sock.id ("question:" ++ valStr (objGetD data "questionId")) "user_typing"
    [("userId", .vstr sock.user.userId), ("userName", .vstr sock.user.name)]

/-- The typing_stop handler. -/
def onTypingStop (st : ServerState) (sock : Socket) (data : Obj) : List Delivery :=
  socketTo st.rooms sock.id ("question:" ++ valStr (objGetD data "questionId"))
    "user_stopped_typing" [("userId", .vstr sock.user.userId)]

/-- The question_liked handler. -/
def onQuestionLiked (st : ServerState) (sock : Socket) (data : Obj) : List Delivery :=
  socketTo st.rooms sock.id ("question:" ++ valStr (objGetD data "questionId"))
    "question_like_updated"
    [("questionId", objGetD data "questionId"),
     ("likedBy", .vstr sock.user.name),
     ("likeCount", objGetD data "likeCount")]

/-- connectedUsers.get(data.targetUserId): the Map is keyed by strings, so a
non-string target misses. -/
def lookupTarget (reg : Registry) (data : Obj) : Option ConnRec :=
  match objGet data "targetUserId" with
  | some (.vstr t) => mget reg t
  | _ => none

/-- The new_connection handler: targeted notification to the connection the
registry records for the target user, dropped silently when absent. -/
def onNewConnection (st : ServerState) (sock : Socket) (data : Obj) : List Delivery :=
  match lookupTarget st.registry data with
  | some targetUser => ioToSocket st.conns targetUser.socketId "connection_request"
      [("from", .vstr sock.user.name), ("fromId", .vstr sock.user.userId),
       ("message", objGetD data "message")]
  | none => []

/-- The private_message handler: targeted delivery to the connection the
registry records for the target user, dropped silently when absent. -/
def onPrivateMessage (st : ServerState) (sock : Socket) (now : Nat) (data : Obj) :
    List Delivery :=
  match lookupTarget st.registry data with
  | some targetUser => ioToSocket st.conns targetUser.socketId "private_message"
      [("from", .vstr sock.user.name), ("fromId", .vstr sock.user.userId),
       ("message", objGetD data "message"), ("timestamp", .vnat now)]
  | none => []

/-- The join_room handler. -/
def onJoinRoom (st : ServerState) (sock : Socket) (roomName : String) : ServerState :=
  { st with rooms := joinRoom st.rooms sock.id roomName }

/-- The leave_room handler. -/
def onLeaveRoom (st : ServerState) (sock : Socket) (roomName : String) : ServerState :=
  { st with rooms := leaveRoom st.rooms sock.id roomName }

/-- The status_update handler: if the sender has a connectedUsers entry, write
the status field back into it; in every case broadcast the status change to
the sender's university room, excluding the sender. -/
def onStatusUpdate (st : ServerState) (sock : Socket) (status : String) :
    ServerState × List Delivery :=
  let registry' :=
    match mget st.registry sock.user.userId with
    | some userData => mset st.registry sock.user.userId { userData with status := some status }
    | none => st.registry
  ({ st with registry := registry' },
   socketTo st.rooms sock.id ("university:" ++ sock.user.university) "user_status_changed"
     [("userId", .vstr sock.user.userId), ("userName", .vstr sock.user.name),
      ("status", .vstr status)])

/-- Transport cleanup at close: the socket leaves every room it was in. -/
def leaveAllRooms : Rooms → String → Rooms
  | [], _ => []
  | p :: rest, sid => if p.1 = sid then leaveAllRooms rest sid else p :: leaveAllRooms rest sid

/-- The disconnect handler: delete the connectedUsers entry for the sender's
userId, drop the transport state of the closing socket, and broadcast the
offline notice to the university room (the closing socket no longer receives
anything). -/
def onDisconnect (st : ServerState) (sock : Socket) : ServerState × List Delivery :=
  let st' : ServerState :=
    { registry := mdel st.registry sock.user.userId
      rooms := leaveAllRooms st.rooms sock.id
      conns := st.conns.filter (fun c => c.id != sock.id) }
  (st', socketTo st'.rooms sock.id ("university:" ++ sock.user.university) "user_offline"
     [("userId", .vstr sock.user.userId), ("userName", .vstr sock.user.name)])

/-! ### The event router -/

/-- The named application events a connection can emit after admission. -/
inductive AppEvent where
  | new_question (data : Obj)
  | new_answer (data : Obj)
  | live_chat (data : Obj)
  | typing_start (data : Obj)
  | typing_stop (data : Obj)
  | question_liked (data : Obj)
  | new_connection (data : Obj)
  | private_message (data : Obj)
  | join_room (roomName : String)
  | leave_room (roomName : String)
  | status_update (status : String)
  | errorEvent
deriving DecidableEq, Repr

/-- Dispatch of one inbound application event on a live connection: the new
server state and the outbound deliveries. The error event is logged only. -/
def route (st : ServerState) (sock : Socket) (now : Nat) :
    AppEvent → ServerState × List Delivery
  | .new_question d => (st, onNewQuestion st sock now d)
  | .new_answer d => (st, onNewAnswer st sock now d)
  | .live_chat d => (st, onLiveChat st sock now d)
  | .typing_start d => (st, onTypingStart st sock d)
  | .typing_stop d => (st, onTypingStop st sock d)
  | .question_liked d => (st, onQuestionLiked st sock d)
  | .new_connection d => (st, onNewConnection st sock d)
  | .private_message d => (st, onPrivateMessage st sock now d)
  | .join_room r => (onJoinRoom st sock r, [])
  | .leave_room r => (onLeaveRoom st sock r, [])
  | .status_update s => onStatusUpdate st sock s
  | .errorEvent => (st, [])

/-! ### External programmatic accessors -/

/-- emitToUser: targeted delivery through the registry, silently dropped when
the user is absent. -/
def emitToUser (st : ServerState) (userId event : String) (data : Obj) : List Delivery :=
  match mget st.registry userId with
  | some userData => ioToSocket st.conns userData.socketId event data
  | none => []

/-- emitToUniversity: io.to on the university room, every member included. -/
def emitToUniversity (st : ServerState) (university event : String) (data : Obj) :
    List Delivery :=
  ioToRoom st.rooms ("university:" ++ university) event data

/-- emitToAll: io.emit to every live connection. -/
def emitToAll (st : ServerState) (event : String) (data : Obj) : List Delivery :=
  ioEmit st.conns event data

/-- getConnectedUsers. -/
def getConnectedUsers (st : ServerState) : List ConnRec :=
  st.registry.map Prod.snd

/-- getConnectedUsersCount: connectedUsers.size. -/
def getConnectedUsersCount (st : ServerState) : Nat :=
  st.registry.length

/-! ### Well-formedness of a server state

Every registry entry is keyed once, and points at a live connection of the
very user it is keyed by. Reachable states of the handler satisfy this. -/

/-- Well-formedness invariant of the server state. -/
def ServerState.WF (st : ServerState) : Prop :=
  (st.registry.map Prod.fst).Nodup ∧
  ∀ p ∈ st.registry, ∃ c ∈ st.conns, c.id = p.2.socketId ∧ c.user.userId = p.1

instance (st : ServerState) : Decidable st.WF := by
  unfold ServerState.WF; infer_instance

/-! ### Lemmas on the Map embedding -/

theorem mget_mset_self (m : Registry) (k : String) (v : ConnRec) :
    mget (mset m k v) k = some v := by
  induction m with
  | nil => simp [mset, mget]
  | cons p rest ih =>
    by_cases h : p.1 = k
    · simp [mset, h, mget]
    · simp [mset, h, mget, ih]

theorem mget_mset_ne (m : Registry) (k k' : String) (v : ConnRec) (h : k' ≠ k) :
    mget (mset m k v) k' = mget m k' := by
  have hkk : ¬ k = k' := fun hh => h hh.symm
  induction m with
  | nil => simp [mset, mget, hkk]
  | cons p rest ih =>
    by_cases hp : p.1 = k
    · have hp' : ¬ p.1 = k' := by rw [hp]; exact hkk
      simp [mset, hp, mget, hkk, hp']
    · by_cases hp' : p.1 = k'
      · simp [mset, hp, mget, hp', h]
      · simp [mset, hp, mget, hp', ih]

theorem mget_mem (m : Registry) (k : String) (v : ConnRec) (h : mget m k = some v) :
    (k, v) ∈ m := by
  induction m with
  | nil => simp [mget] at h
  | cons p rest ih =>
    by_cases hp : p.1 = k
    · simp [mget, hp] at h
      have hpv : (k, v) = p := by
        calc (k, v) = (p.1, p.2) := by rw [hp, h]
          _ = p := rfl
      rw [hpv]
      exact List.mem_cons_self _ _
    · simp [mget, hp] at h
      exact List.mem_cons_of_mem _ (ih h)

theorem countKey_eq_zero_of_not_mem (m : Registry) (k : String)
    (h : k ∉ m.map Prod.fst) : countKey m k = 0 := by
  induction m with
  | nil => rfl
  | cons p rest ih =>
    rw [List.map_cons] at h
    have h1 : ¬ p.1 = k := fun hh => h (by rw [hh]; exact List.mem_cons_self _ _)
    have h2 : k ∉ rest.map Prod.fst := fun hh => h (List.mem_cons_of_mem _ hh)
    simp [countKey, h1, ih h2]

theorem countKey_mset_of_nodup (m : Registry) (k : String) (v : ConnRec)
    (h : (m.map Prod.fst).Nodup) : countKey (mset m k v) k = 1 := by
  induction m with
  | nil => simp [mset, countKey]
  | cons p rest ih =>
    rw [List.map_cons, List.nodup_cons] at h
    by_cases hp : p.1 = k
    · have hk : k ∉ rest.map Prod.fst := fun hk => h.1 (hp ▸ hk)
      simp [mset, hp, countKey, countKey_eq_zero_of_not_mem rest k hk]
    · simp [mset, hp, countKey, ih h.2]

theorem countKey_of_mget_some (m : Registry) (k : String) (v : ConnRec)
    (hnd : (m.map Prod.fst).Nodup) (h : mget m k = some v) : countKey m k = 1 := by
  induction m with
  | nil => simp [mget] at h
  | cons p rest ih =>
    rw [List.map_cons, List.nodup_cons] at hnd
    by_cases hp : p.1 = k
    · have hk : k ∉ rest.map Prod.fst := fun hk => hnd.1 (hp ▸ hk)
      simp [countKey, hp, countKey_eq_zero_of_not_mem rest k hk]
    · simp [mget, hp] at h
      simp [countKey, hp, ih hnd.2 h]

theorem mget_mdel_self (m : Registry) (k : String) : mget (mdel m k) k = none := by
  induction m with
  | nil => rfl
  | cons p rest ih =>
    by_cases hp : p.1 = k
    · simp [mdel, hp, ih]
    · simp [mdel, hp, mget, ih]

theorem mget_mdel_ne (m : Registry) (k k' : String) (h : k' ≠ k) :
    mget (mdel m k) k' = mget m k' := by
  have hkk : ¬ k = k' := fun hh => h hh.symm
  induction m with
  | nil => rfl
  | cons p rest ih =>
    by_cases hp : p.1 = k
    · have hne : ¬ p.1 = k' := fun hh => h (by rw [← hh, hp])
      simp [mdel, hp, mget, hne, hkk, ih]
    · simp [mdel, hp, mget, ih]

theorem mdel_of_mget_none (m : Registry) (k : String) (h : mget m k = none) :
    mdel m k = m := by
  induction m with
  | nil => rfl
  | cons p rest ih =>
    by_cases hp : p.1 = k
    · simp [mget, hp] at h
    · simp [mget, hp] at h
      simp [mdel, hp, ih h]

theorem length_mdel_add_countKey (m : Registry) (k : String) :
    (mdel m k).length + countKey m k = m.length := by
  induction m with
  | nil => rfl
  | cons p rest ih =>
    by_cases hp : p.1 = k
    · simp [mdel, hp, countKey]
      omega
    · simp [mdel, hp, countKey]
      omega

theorem keys_mset_of_mget_some (m : Registry) (k : String) (v w : ConnRec)
    (h : mget m k = some v) : (mset m k w).map Prod.fst = m.map Prod.fst := by
  induction m with
  | nil => simp [mget] at h
  | cons p rest ih =>
    by_cases hp : p.1 = k
    · simp [mset, hp]
    · simp [mget, hp] at h
      simp [mset, hp, ih h]

/-! ### Lemmas on the object embedding -/

theorem objGet_objSet_self (o : Obj) (k : String) (v : Value) :
    objGet (objSet o k v) k = some v := by
  induction o with
  | nil => simp [objSet, objGet]
  | cons p rest ih =>
    by_cases h : p.1 = k
    · simp [objSet, h, objGet]
    · simp [objSet, h, objGet, ih]

theorem objGet_objSet_ne (o : Obj) (k k' : String) (v : Value) (h : k' ≠ k) :
    objGet (objSet o k v) k' = objGet o k' := by
  have hkk : ¬ k = k' := fun hh => h hh.symm
  induction o with
  | nil => simp [objSet, objGet, hkk]
  | cons p rest ih =>
    by_cases hp : p.1 = k
    · have hp' : ¬ p.1 = k' := by rw [hp]; exact hkk
      simp [objSet, hp, objGet, hkk, hp']
    · by_cases hp' : p.1 = k'
      · simp [objSet, hp, objGet, hp', h]
      · simp [objSet, hp, objGet, hp', ih]

/-! ### Lemmas on fan-out primitives -/

theorem socketTo_mem (rs : Rooms) (sender room event : String) (payload : Obj)
    (c : String) (hm : (c, room) ∈ rs) (hc : c ≠ sender) :
    Delivery.mk c event payload ∈ socketTo rs sender room event payload := by
  induction rs with
  | nil => cases hm
  | cons q rest ih =>
    rcases List.mem_cons.1 hm with hq | hrest
    · have h2 : q.2 = room := by rw [← hq]
      have h1 : q.1 = c := by rw [← hq]
      rw [socketTo, if_pos ⟨h2, h1 ▸ hc⟩, h1]
      exact List.mem_cons_self _ _
    · by_cases hcond : q.2 = room ∧ q.1 ≠ sender
      · rw [socketTo, if_pos hcond]
        exact List.mem_cons_of_mem _ (ih hrest)
      · rw [socketTo, if_neg hcond]
        exact ih hrest

theorem socketTo_target_ne (rs : Rooms) (sender room event : String) (payload : Obj) :
    ∀ d ∈ socketTo rs sender room event payload, d.target ≠ sender := by
  induction rs with
  | nil => intro d hd; cases hd
  | cons q rest ih =>
    intro d hd
    by_cases hcond : q.2 = room ∧ q.1 ≠ sender
    · rw [socketTo, if_pos hcond] at hd
      rcases List.mem_cons.1 hd with hq | hrest
      · rw [hq]
        exact hcond.2
      · exact ih d hrest
    · rw [socketTo, if_neg hcond] at hd
      exact ih d hd

theorem mem_ioToRoom (rs : Rooms) (room event : String) (payload : Obj)
    (c : String) :
    Delivery.mk c event payload ∈ ioToRoom rs room event payload ↔ (c, room) ∈ rs := by
  induction rs with
  | nil => simp [ioToRoom]
  | cons q rest ih =>
    by_cases h : q.2 = room
    · rw [ioToRoom, if_pos h]
      constructor
      · intro hm
        rcases List.mem_cons.1 hm with he | hr
        · have h1 : c = q.1 := congrArg Delivery.target he
          exact List.mem_cons.2 (Or.inl (by rw [h1, ← h]))
        · exact List.mem_cons.2 (Or.inr (ih.1 hr))
      · intro hm
        rcases List.mem_cons.1 hm with he | hr
        · have h1 : c = q.1 := congrArg Prod.fst he
          exact List.mem_cons.2 (Or.inl (by rw [h1]))
        · exact List.mem_cons.2 (Or.inr (ih.2 hr))
    · rw [ioToRoom, if_neg h]
      rw [ih]
      constructor
      · exact fun hr => List.mem_cons_of_mem _ hr
      · intro hm
        rcases List.mem_cons.1 hm with hq | hr
        · exact absurd (by rw [← hq] : q.2 = room) h
        · exact hr

theorem isLive_iff (conns : List Socket) (sid : String) :
    isLive conns sid = true ↔ ∃ c ∈ conns, c.id = sid := by
  simp [isLive, List.any_eq_true, beq_iff_eq]

theorem mem_ioEmit (conns : List Socket) (event : String) (payload : Obj) (c : String) :
    Delivery.mk c event payload ∈ ioEmit conns event payload ↔ ∃ cn ∈ conns, cn.id = c := by
  simp only [ioEmit, List.mem_map, Delivery.mk.injEq]
  constructor
  · rintro ⟨cn, hcn, h1, -, -⟩
    exact ⟨cn, hcn, h1⟩
  · rintro ⟨cn, hcn, h1⟩
    exact ⟨cn, hcn, h1, trivial, trivial⟩

theorem mem_leaveAllRooms (rs : Rooms) (sid : String) (pr : String × String) :
    pr ∈ leaveAllRooms rs sid ↔ pr ∈ rs ∧ pr.1 ≠ sid := by
  induction rs with
  | nil => simp [leaveAllRooms]
  | cons q rest ih =>
    by_cases h : q.1 = sid
    · rw [leaveAllRooms, if_pos h, ih]
      simp only [List.mem_cons]
      constructor
      · rintro ⟨hm, hne⟩
        exact ⟨Or.inr hm, hne⟩
      · rintro ⟨hq | hm, hne⟩
        · exact absurd (by rw [hq]; exact h) hne
        · exact ⟨hm, hne⟩
    · rw [leaveAllRooms, if_neg h]
      simp only [List.mem_cons, ih]
      constructor
      · rintro (hq | ⟨hm, hne⟩)
        · exact ⟨Or.inl hq, by rw [hq]; exact h⟩
        · exact ⟨Or.inr hm, hne⟩
      · rintro ⟨hq | hm, hne⟩
        · exact Or.inl hq
        · exact Or.inr ⟨hm, hne⟩

/-! ### Concrete fixtures used by witnesses and counterexamples

All states below are reached from the empty server state by running the
embedded handlers themselves. -/

/-- A user of university X. -/
def uniUserA : UserRec := UserRec.mk "uA" "Alice" "AL" "X"

/-- Another user of university X. -/
def uniUserB : UserRec := UserRec.mk "uB" "Bob" "BO" "X"

/-- The empty server state at process start. -/
def exSt0 : ServerState := ServerState.mk [] [] []

/-- After user A is admitted on socket s1. -/
def exSt1 : ServerState := handleConnection exSt0 (Socket.mk "s1" uniUserA) 1

/-- After user A is additionally admitted on a second socket s2. -/
def exSt2 : ServerState := handleConnection exSt1 (Socket.mk "s2" uniUserA) 2

/-- After the first of user A's two simultaneous connections disconnects:
the registry slot shared by both sessions is gone while s2 is still live. -/
def exSt3 : ServerState := (onDisconnect exSt2 (Socket.mk "s1" uniUserA)).1

/-- After user A (socket s1) and user B (socket s9) are admitted. -/
def exStB : ServerState := handleConnection exSt1 (Socket.mk "s9" uniUserB) 3

/-- An example token verifier: the single token tokA resolves to uA. -/
def exVerify : String → Option String :=
  fun t => if t = "tokA" then some "uA" else none

/-- An example identity store holding only user A. -/
def exFindById : String → Option UserRec :=
  fun uid => if uid = "uA" then some uniUserA else none

/-! ### C1 -/

/-- C1: every handshake attempt the middleware rejects (missing credential,
failing verification, or identity not found) is turned away before admission:
the registry, the room memberships and the set of live connections are all
exactly as before, so no registry entry is written, no room is joined, and no
event handler can ever run for that connection (handlers run only for
connections admitted into the state). -/
theorem handshake_rejected_no_state_change
    (verify : String → Option String) (findById : String → Option UserRec)
    (st : ServerState) (sid : String) (token : Option String) (now : Nat) (e : String)
    (h : authMiddleware verify findById token = .err e) :
    (handshake verify findById st sid token now).1.registry = st.registry ∧
    (handshake verify findById st sid token now).1.rooms = st.rooms ∧
    (handshake verify findById st sid token now).1.conns = st.conns ∧
    (handshake verify findById st sid token now).2 = some e := by
  simp [handshake, h]

/-- Witness for C1 at a concrete rejected handshake: a token that fails
verification leaves the state untouched and reports the rejection. -/
theorem handshake_rejected_no_state_change_witness :
    (handshake (fun _ => none) exFindById exSt1 "s7" (some "tok") 9).1.conns
      = exSt1.conns ∧
    (handshake (fun _ => none) exFindById exSt1 "s7" (some "tok") 9).2
      = some "Authentication error" :=
  ⟨(handshake_rejected_no_state_change (fun _ => none) exFindById exSt1 "s7"
      (some "tok") 9 "Authentication error" rfl).2.2.1,
   (handshake_rejected_no_state_change (fun _ => none) exFindById exSt1 "s7"
      (some "tok") 9 "Authentication error" rfl).2.2.2⟩

/-! ### C2 -/

/-- C2: after every successful handshake the registry holds exactly one entry
for the admitted userId, and its recorded socket id is the newest admitted
connection's id; this holds whether or not the userId already had an entry,
so a reconnect of the same userId overwrites the prior entry. -/
theorem handshake_success_registry
    (verify : String → Option String) (findById : String → Option UserRec)
    (st : ServerState) (sid : String) (token : Option String) (now : Nat) (u : UserRec)
    (hnd : (st.registry.map Prod.fst).Nodup)
    (h : authMiddleware verify findById token = .ok u) :
    mget (handshake verify findById st sid token now).1.registry u.userId =
      some (ConnRec.mk sid u now none) ∧
    countKey (handshake verify findById st sid token now).1.registry u.userId = 1 := by
  have hreg : (handshake verify findById st sid token now).1.registry =
      mset st.registry u.userId (ConnRec.mk sid u now none) := by
    simp [handshake, h, handleConnection]
  rw [hreg]
  exact ⟨mget_mset_self _ _ _, countKey_mset_of_nodup _ _ _ hnd⟩

/-- Witness for C2 at a concrete reconnect: user A already has a registry
entry recording socket s1; a second successful handshake on socket s2
overwrites it, leaving one entry that records s2. -/
theorem handshake_success_registry_witness :
    mget (handshake exVerify exFindById exSt1 "s2" (some "tokA") 2).1.registry "uA" =
      some (ConnRec.mk "s2" uniUserA 2 none) ∧
    countKey (handshake exVerify exFindById exSt1 "s2" (some "tokA") 2).1.registry "uA" = 1 :=
  handshake_success_registry exVerify exFindById exSt1 "s2" (some "tokA") 2 uniUserA
    (by decide) (by decide)

/-! ### C8 -/

/-- C8 counterexample: the middleware does not use three distinct rejection
reasons. A missing credential and a credential failing verification are
rejected with the identical reason string, Authentication error; only the
identity-not-found case is distinct, with User not found. -/
theorem auth_missing_and_invalid_share_reason :
    authMiddleware exVerify (fun _ => none) none = .err "Authentication error" ∧
    authMiddleware exVerify (fun _ => none) (some "garbage") =
      .err "Authentication error" ∧
    authMiddleware exVerify (fun _ => none) (some "tokA") = .err "User not found" := by
  refine ⟨rfl, ?_, ?_⟩ <;> decide

/-- C8 amended: the gate distinguishes two rejection reasons, not three: a
missing credential and a credential failing verification are both rejected
with Authentication error, and a verified credential whose embedded identity
is not in the identity store is rejected with User not found (a verified,
resolvable credential is admitted). -/
theorem auth_gate_error_reasons
    (verify : String → Option String) (findById : String → Option UserRec) :
    authMiddleware verify findById none = .err "Authentication error" ∧
    (∀ t, verify t = none →
      authMiddleware verify findById (some t) = .err "Authentication error") ∧
    (∀ t uid, verify t = some uid → findById uid = none →
      authMiddleware verify findById (some t) = .err "User not found") ∧
    (∀ t uid u, verify t = some uid → findById uid = some u →
      authMiddleware verify findById (some t) = .ok u) := by
  refine ⟨rfl, ?_, ?_, ?_⟩
  · intro t ht
    simp [authMiddleware, ht]
  · intro t uid ht hf
    simp [authMiddleware, ht, hf]
  · intro t uid u ht hf
    simp [authMiddleware, ht, hf]

/-- Witness for C8 amended at concrete inputs: the admitted case with the
example verifier and identity store. -/
theorem auth_gate_error_reasons_witness :
    authMiddleware exVerify exFindById (some "tokA") = .ok uniUserA :=
  (auth_gate_error_reasons exVerify exFindById).2.2.2 "tokA" "uA" uniUserA
    (by decide) (by decide)

/-! ### C3 -/

/-- C3: on a well-formed state, a private_message event whose target userId is
present in the registry produces exactly one outbound event, sent to the
socket the registry records for that user and carrying the sender's name and
id and the original message body; a target absent from the registry produces
no outbound delivery at all. The handler is a total function, so neither case
raises anything to the sender. -/
theorem private_message_fanout (st : ServerState) (sock : Socket) (now : Nat)
    (data : Obj) (hwf : st.WF) :
    (lookupTarget st.registry data = none → onPrivateMessage st sock now data = []) ∧
    (∀ rec, lookupTarget st.registry data = some rec →
      onPrivateMessage st sock now data =
        [Delivery.mk rec.socketId "private_message"
          [("from", .vstr sock.user.name), ("fromId", .vstr sock.user.userId),
           ("message", objGetD data "message"), ("timestamp", .vnat now)]]) := by
  constructor
  · intro h
    simp [onPrivateMessage, h]
  · intro rec hrec
    have hmem : ∃ t, mget st.registry t = some rec := by
      have hrec2 := hrec
      unfold lookupTarget at hrec2
      cases hg : objGet data "targetUserId" with
      | none => rw [hg] at hrec2; cases hrec2
      | some v =>
        cases v with
        | vstr t => rw [hg] at hrec2; exact ⟨t, hrec2⟩
        | vnat n => rw [hg] at hrec2; cases hrec2
        | vundefined => rw [hg] at hrec2; cases hrec2
    obtain ⟨t, ht⟩ := hmem
    obtain ⟨c, hc, hid, -⟩ := hwf.2 (t, rec) (mget_mem _ _ _ ht)
    have hlive : isLive st.conns rec.socketId = true :=
      (isLive_iff _ _).2 ⟨c, hc, hid⟩
    simp [onPrivateMessage, hrec, ioToSocket, hlive]

/-- Witness for C3 at concrete inputs: B messages A, who is registered on
socket s1, and exactly that one delivery happens; messaging an unknown user
uZ delivers nothing. -/
theorem private_message_fanout_witness :
    onPrivateMessage exStB (Socket.mk "s9" uniUserB) 10
        [("targetUserId", .vstr "uA"), ("message", .vstr "hello")] =
      [Delivery.mk "s1" "private_message"
        [("from", .vstr "Bob"), ("fromId", .vstr "uB"),
         ("message", .vstr "hello"), ("timestamp", .vnat 10)]] ∧
    onPrivateMessage exStB (Socket.mk "s9" uniUserB) 10
        [("targetUserId", .vstr "uZ"), ("message", .vstr "hello")] = [] :=
  ⟨(private_message_fanout exStB (Socket.mk "s9" uniUserB) 10
      [("targetUserId", .vstr "uA"), ("message", .vstr "hello")] (by decide)).2
      (ConnRec.mk "s1" uniUserA 1 none) (by decide),
   (private_message_fanout exStB (Socket.mk "s9" uniUserB) 10
      [("targetUserId", .vstr "uZ"), ("message", .vstr "hello")] (by decide)).1
      (by decide)⟩

/-! ### C4 -/

/-- C4: the new_question fan-out excludes the sender. Every other current
member of the sender's university room receives the stamped new_question
event, every other member of the global room receives the question_trending
notice, and no delivery of the handler ever targets the sender's own
connection. -/
theorem new_question_self_exclusion (st : ServerState) (sock : Socket) (now : Nat)
    (data : Obj) :
    (∀ c, (c, "university:" ++ sock.user.university) ∈ st.rooms → c ≠ sock.id →
      Delivery.mk c "new_question" (questionPayload sock.user now data) ∈
        onNewQuestion st sock now data) ∧
    (∀ c, (c, "global") ∈ st.rooms → c ≠ sock.id →
      Delivery.mk c "question_trending" (trendingPayload sock.user data) ∈
        onNewQuestion st sock now data) ∧
    (∀ d ∈ onNewQuestion st sock now data, d.target ≠ sock.id) := by
  refine ⟨?_, ?_, ?_⟩
  · intro c hm hc
    exact List.mem_append_left _
      (socketTo_mem st.rooms sock.id _ "new_question" _ c hm hc)
  · intro c hm hc
    exact List.mem_append_right _
      (socketTo_mem st.rooms sock.id _ "question_trending" _ c hm hc)
  · intro d hd
    rcases List.mem_append.1 hd with h1 | h2
    · exact socketTo_target_ne _ _ _ _ _ d h1
    · exact socketTo_target_ne _ _ _ _ _ d h2

/-- Witness for C4 at concrete inputs: B posts a question; A's socket s1 (the
other member of both rooms) receives the room event and the trending notice. -/
theorem new_question_self_exclusion_witness :
    Delivery.mk "s1" "new_question"
        (questionPayload uniUserB 11 [("title", .vstr "T")]) ∈
      onNewQuestion exStB (Socket.mk "s9" uniUserB) 11 [("title", .vstr "T")] ∧
    Delivery.mk "s1" "question_trending"
        (trendingPayload uniUserB [("title", .vstr "T")]) ∈
      onNewQuestion exStB (Socket.mk "s9" uniUserB) 11 [("title", .vstr "T")] :=
  ⟨(new_question_self_exclusion exStB (Socket.mk "s9" uniUserB) 11
      [("title", .vstr "T")]).1 "s1" (by decide) (by decide),
   (new_question_self_exclusion exStB (Socket.mk "s9" uniUserB) 11
      [("title", .vstr "T")]).2.1 "s1" (by decide) (by decide)⟩

/-! ### C10 -/

/-- C10: the external programmatic accessors apply no sender self-exclusion.
emitToUniversity delivers the event to exactly the current members of the
university room, whoever they are — including any connection of the user who
triggered the call — and emitToAll delivers to every live connection. -/
theorem external_emit_no_self_exclusion (st : ServerState) (university event : String)
    (data : Obj) :
    (∀ c, Delivery.mk c event data ∈ emitToUniversity st university event data ↔
      (c, "university:" ++ university) ∈ st.rooms) ∧
    (∀ c, Delivery.mk c event data ∈ emitToAll st event data ↔
      ∃ cn ∈ st.conns, cn.id = c) :=
  ⟨fun c => mem_ioToRoom st.rooms _ event data c,
   fun c => mem_ioEmit st.conns event data c⟩

/-- Witness for C10 at concrete inputs: even socket s9 — the connection of
the user on whose behalf the REST layer would call the accessor — receives
both emissions. -/
theorem external_emit_no_self_exclusion_witness :
    Delivery.mk "s9" "announce" [] ∈ emitToUniversity exStB "X" "announce" [] ∧
    Delivery.mk "s9" "announce" [] ∈ emitToAll exStB "announce" [] :=
  ⟨((external_emit_no_self_exclusion exStB "X" "announce" []).1 "s9").mpr (by decide),
   ((external_emit_no_self_exclusion exStB "X" "announce" []).2 "s9").mpr (by decide)⟩

/-! ### C5 -/

/-- C5 counterexample: with two simultaneous connections of the same userId,
the second disconnect does not decrement the registry count by one. In exSt3
user A is still connected on socket s2 but the single registry slot for uA
was already deleted when the first session s1 disconnected, so processing
s2's disconnect leaves the count unchanged instead of decrementing it. -/
theorem disconnect_second_session_count :
    Socket.mk "s2" uniUserA ∈ exSt3.conns ∧
    getConnectedUsersCount ((onDisconnect exSt3 (Socket.mk "s2" uniUserA)).1) + 1 ≠
      getConnectedUsersCount exSt3 := by
  decide

/-- C5 amended: processing a user's disconnect always leaves the registry
with no entry for that userId and broadcasts the offline notice to every
other member of the user's university room; the count drops by exactly one
when the userId was present in the registry at disconnect time, and is
unchanged when it was absent — which happens when the same userId had
multiple simultaneous connections and one of them already disconnected. -/
theorem disconnect_registry_cleanup (st : ServerState) (sock : Socket)
    (hnd : (st.registry.map Prod.fst).Nodup) :
    mget (onDisconnect st sock).1.registry sock.user.userId = none ∧
    (∀ v, mget st.registry sock.user.userId = some v →
      getConnectedUsersCount (onDisconnect st sock).1 + 1 = getConnectedUsersCount st) ∧
    (mget st.registry sock.user.userId = none →
      getConnectedUsersCount (onDisconnect st sock).1 = getConnectedUsersCount st) ∧
    (∀ c, (c, "university:" ++ sock.user.university) ∈ st.rooms → c ≠ sock.id →
      Delivery.mk c "user_offline"
          [("userId", .vstr sock.user.userId), ("userName", .vstr sock.user.name)] ∈
        (onDisconnect st sock).2) := by
  refine ⟨mget_mdel_self _ _, ?_, ?_, ?_⟩
  · intro v hv
    have h1 := length_mdel_add_countKey st.registry sock.user.userId
    have h2 := countKey_of_mget_some st.registry sock.user.userId v hnd hv
    show (mdel st.registry sock.user.userId).length + 1 = st.registry.length
    omega
  · intro hv
    show (mdel st.registry sock.user.userId).length = st.registry.length
    rw [mdel_of_mget_none _ _ hv]
  · intro c hm hc
    have hm2 : (c, "university:" ++ sock.user.university) ∈
        leaveAllRooms st.rooms sock.id :=
      (mem_leaveAllRooms _ _ _).2 ⟨hm, hc⟩
    exact socketTo_mem (leaveAllRooms st.rooms sock.id) sock.id _ "user_offline" _ c hm2 hc

/-- Witness for C5 amended at concrete inputs: user A (present in the
registry) disconnects from exStB; the entry is gone, the count drops by one,
and B's socket s9 receives the offline notice. -/
theorem disconnect_registry_cleanup_witness :
    mget ((onDisconnect exStB (Socket.mk "s1" uniUserA)).1).registry "uA" = none ∧
    getConnectedUsersCount (onDisconnect exStB (Socket.mk "s1" uniUserA)).1 + 1 =
      getConnectedUsersCount exStB ∧
    Delivery.mk "s9" "user_offline"
        [("userId", .vstr "uA"), ("userName", .vstr "Alice")] ∈
      (onDisconnect exStB (Socket.mk "s1" uniUserA)).2 :=
  ⟨(disconnect_registry_cleanup exStB (Socket.mk "s1" uniUserA) (by decide)).1,
   (disconnect_registry_cleanup exStB (Socket.mk "s1" uniUserA) (by decide)).2.1
      (ConnRec.mk "s1" uniUserA 1 none) (by decide),
   (disconnect_registry_cleanup exStB (Socket.mk "s1" uniUserA) (by decide)).2.2.2
      "s9" (by decide) (by decide)⟩

/-! ### C6 -/

/-- C6 counterexample: a connected user whose registry entry was removed by a
sibling session's disconnect emits status_update, and afterwards there is no
registry entry for that user at all — in particular no entry whose status
equals the payload. In exSt3 user A is still connected on s2, yet
status_update leaves the registry without any uA entry. -/
theorem status_update_orphaned_session :
    Socket.mk "s2" uniUserA ∈ exSt3.conns ∧
    mget ((onStatusUpdate exSt3 (Socket.mk "s2" uniUserA) "busy").1).registry "uA" =
      none := by
  decide

/-- C6 amended: when the sender's userId is present in the registry, a
status_update sets exactly that entry's status to the payload, leaving its
other fields and every other entry unchanged; when the userId is absent
(possible after a sibling session of the same user disconnected) the registry
is left entirely unchanged. In both cases the status-changed event naming the
sender and carrying the payload is broadcast to every other member of the
sender's university room, and rooms and connections are untouched. -/
theorem status_update_behavior (st : ServerState) (sock : Socket) (status : String) :
    (∀ rec, mget st.registry sock.user.userId = some rec →
      mget (onStatusUpdate st sock status).1.registry sock.user.userId =
        some { rec with status := some status } ∧
      ∀ k, k ≠ sock.user.userId →
        mget (onStatusUpdate st sock status).1.registry k = mget st.registry k) ∧
    (mget st.registry sock.user.userId = none →
      (onStatusUpdate st sock status).1.registry = st.registry) ∧
    (onStatusUpdate st sock status).1.rooms = st.rooms ∧
    (onStatusUpdate st sock status).1.conns = st.conns ∧
    (∀ c, (c, "university:" ++ sock.user.university) ∈ st.rooms → c ≠ sock.id →
      Delivery.mk c "user_status_changed"
          [("userId", .vstr sock.user.userId), ("userName", .vstr sock.user.name),
           ("status", .vstr status)] ∈ (onStatusUpdate st sock status).2) := by
  refine ⟨?_, ?_, rfl, rfl, ?_⟩
  · intro rec hrec
    have heq : (onStatusUpdate st sock status).1.registry =
        mset st.registry sock.user.userId { rec with status := some status } := by
      simp [onStatusUpdate, hrec]
    rw [heq]
    exact ⟨mget_mset_self _ _ _, fun k hk => mget_mset_ne _ _ _ _ hk⟩
  · intro h
    simp [onStatusUpdate, h]
  · intro c hm hc
    exact socketTo_mem st.rooms sock.id _ "user_status_changed" _ c hm hc

/-- Witness for C6 amended at concrete inputs: A, present in the registry of
exStB, goes busy; the entry now carries the status and B's socket s9 receives
the status-changed event. -/
theorem status_update_behavior_witness :
    mget ((onStatusUpdate exStB (Socket.mk "s1" uniUserA) "busy").1).registry "uA" =
      some (ConnRec.mk "s1" uniUserA 1 (some "busy")) ∧
    Delivery.mk "s9" "user_status_changed"
        [("userId", .vstr "uA"), ("userName", .vstr "Alice"), ("status", .vstr "busy")] ∈
      (onStatusUpdate exStB (Socket.mk "s1" uniUserA) "busy").2 :=
  ⟨((status_update_behavior exStB (Socket.mk "s1" uniUserA) "busy").1
      (ConnRec.mk "s1" uniUserA 1 none) (by decide)).1,
   (status_update_behavior exStB (Socket.mk "s1" uniUserA) "busy").2.2.2.2
      "s9" (by decide) (by decide)⟩

/-! ### C7 -/

/-- C7 counterexample: the registry is not mutated only by lifecycle hooks.
status_update is an application event dispatched by the event router, and
routing it on a state whose registry holds the sender changes the registry. -/
theorem status_update_mutates_registry :
    (route exSt1 (Socket.mk "s1" uniUserA) 5 (AppEvent.status_update "busy")).1.registry ≠
      exSt1.registry := by
  decide

/-- C7 amended: among the application events dispatched by the event router,
every event except status_update leaves the registry unchanged; status_update
never changes the set of registry keys or any other user's entry, and at most
rewrites the status field of the sender's own entry. -/
theorem router_registry_stability (st : ServerState) (sock : Socket) (now : Nat)
    (e : AppEvent) :
    ((∀ s, e ≠ AppEvent.status_update s) →
      (route st sock now e).1.registry = st.registry) ∧
    (route st sock now e).1.registry.map Prod.fst = st.registry.map Prod.fst ∧
    (∀ k, k ≠ sock.user.userId →
      mget (route st sock now e).1.registry k = mget st.registry k) ∧
    (∀ s rec, e = AppEvent.status_update s →
      mget st.registry sock.user.userId = some rec →
      mget (route st sock now e).1.registry sock.user.userId =
        some { rec with status := some s }) := by
  cases e with
  | status_update s =>
    refine ⟨fun h => absurd rfl (h s), ?_, ?_, ?_⟩
    · cases hg : mget st.registry sock.user.userId with
      | none => simp [route, onStatusUpdate, hg]
      | some rec =>
        have heq : (route st sock now (AppEvent.status_update s)).1.registry =
            mset st.registry sock.user.userId { rec with status := some s } := by
          simp [route, onStatusUpdate, hg]
        rw [heq]
        exact keys_mset_of_mget_some _ _ rec _ hg
    · intro k hk
      cases hg : mget st.registry sock.user.userId with
      | none => simp [route, onStatusUpdate, hg]
      | some rec =>
        have heq : (route st sock now (AppEvent.status_update s)).1.registry =
            mset st.registry sock.user.userId { rec with status := some s } := by
          simp [route, onStatusUpdate, hg]
        rw [heq]
        exact mget_mset_ne _ _ _ _ hk
    · intro s2 rec he hrec
      injection he with hs
      subst hs
      have heq : (route st sock now (AppEvent.status_update s)).1.registry =
          mset st.registry sock.user.userId { rec with status := some s } := by
        simp [route, onStatusUpdate, hrec]
      rw [heq]
      exact mget_mset_self _ _ _
  | new_question d => exact ⟨fun _ => rfl, rfl, fun _ _ => rfl, fun _ _ he _ => nomatch he⟩
  | new_answer d => exact ⟨fun _ => rfl, rfl, fun _ _ => rfl, fun _ _ he _ => nomatch he⟩
  | live_chat d => exact ⟨fun _ => rfl, rfl, fun _ _ => rfl, fun _ _ he _ => nomatch he⟩
  | typing_start d => exact ⟨fun _ => rfl, rfl, fun _ _ => rfl, fun _ _ he _ => nomatch he⟩
  | typing_stop d => exact ⟨fun _ => rfl, rfl, fun _ _ => rfl, fun _ _ he _ => nomatch he⟩
  | question_liked d => exact ⟨fun _ => rfl, rfl, fun _ _ => rfl, fun _ _ he _ => nomatch he⟩
  | new_connection d => exact ⟨fun _ => rfl, rfl, fun _ _ => rfl, fun _ _ he _ => nomatch he⟩
  | private_message d => exact ⟨fun _ => rfl, rfl, fun _ _ => rfl, fun _ _ he _ => nomatch he⟩
  | join_room r => exact ⟨fun _ => rfl, rfl, fun _ _ => rfl, fun _ _ he _ => nomatch he⟩
  | leave_room r => exact ⟨fun _ => rfl, rfl, fun _ _ => rfl, fun _ _ he _ => nomatch he⟩
  | errorEvent => exact ⟨fun _ => rfl, rfl, fun _ _ => rfl, fun _ _ he _ => nomatch he⟩

/-- Witness for C7 amended at concrete inputs: a new_question event routed on
exStB leaves the registry untouched, and a status_update by A leaves B's
entry untouched. -/
theorem router_registry_stability_witness :
    (route exStB (Socket.mk "s1" uniUserA) 5
        (AppEvent.new_question [("title", .vstr "T")])).1.registry = exStB.registry ∧
    mget (route exStB (Socket.mk "s1" uniUserA) 5
        (AppEvent.status_update "busy")).1.registry "uB" = mget exStB.registry "uB" :=
  ⟨(router_registry_stability exStB (Socket.mk "s1" uniUserA) 5
      (AppEvent.new_question [("title", .vstr "T")])).1 (fun _ h => nomatch h),
   (router_registry_stability exStB (Socket.mk "s1" uniUserA) 5
      (AppEvent.status_update "busy")).2.2.1 "uB" (by decide)⟩

/-! ### C9 -/

/-- A client payload trying to spoof the author field. -/
def exPayload1 : Obj := [("author", .vstr "evil"), ("title", .vstr "T")]

/-- A second spoofing payload differing from the first only in the stamped
fields. -/
def exPayload2 : Obj := [("author", .vstr "worse"), ("timestamp", .vnat 0),
  ("title", .vstr "T")]

/-- C9: the server stamp cannot be spoofed. In each stamped outbound payload
(new_question, new_answer, live_chat) the author, authorInitial and timestamp
fields always read as the authenticated sender's name, initials and the
server clock, whatever the client sent; and two inbound payloads differing
only in those caller-supplied fields produce outbound payloads with
identical fields throughout. -/
theorem stamp_overrides_client_fields (u : UserRec) (now : Nat) (d1 d2 : Obj)
    (hagree : ∀ k, k ≠ "author" → k ≠ "authorInitial" → k ≠ "timestamp" →
      objGet d1 k = objGet d2 k) :
    (objGet (questionPayload u now d1) "author" = some (.vstr u.name) ∧
     objGet (questionPayload u now d1) "authorInitial" = some (.vstr u.initials) ∧
     objGet (questionPayload u now d1) "timestamp" = some (.vnat now)) ∧
    (objGet (answerPayload u now d1) "author" = some (.vstr u.name) ∧
     objGet (answerPayload u now d1) "authorInitial" = some (.vstr u.initials) ∧
     objGet (answerPayload u now d1) "timestamp" = some (.vnat now)) ∧
    (objGet (chatPayload u now d1) "author" = some (.vstr u.name) ∧
     objGet (chatPayload u now d1) "authorInitial" = some (.vstr u.initials) ∧
     objGet (chatPayload u now d1) "timestamp" = some (.vnat now)) ∧
    (∀ k, objGet (questionPayload u now d1) k = objGet (questionPayload u now d2) k) ∧
    (∀ k, objGet (answerPayload u now d1) k = objGet (answerPayload u now d2) k) ∧
    chatPayload u now d1 = chatPayload u now d2 := by
  refine ⟨⟨?_, ?_, ?_⟩, ⟨?_, ?_, ?_⟩, ⟨?_, ?_, ?_⟩, ?_, ?_, ?_⟩
  · unfold questionPayload
    rw [objGet_objSet_ne _ _ _ _ (by decide), objGet_objSet_ne _ _ _ _ (by decide),
        objGet_objSet_ne _ _ _ _ (by decide), objGet_objSet_self]
  · unfold questionPayload
    rw [objGet_objSet_ne _ _ _ _ (by decide), objGet_objSet_ne _ _ _ _ (by decide),
        objGet_objSet_self]
  · unfold questionPayload
    rw [objGet_objSet_self]
  · unfold answerPayload
    rw [objGet_objSet_ne _ _ _ _ (by decide), objGet_objSet_ne _ _ _ _ (by decide),
        objGet_objSet_self]
  · unfold answerPayload
    rw [objGet_objSet_ne _ _ _ _ (by decide), objGet_objSet_self]
  · unfold answerPayload
    rw [objGet_objSet_self]
  · simp [chatPayload, objGet]
  · simp [chatPayload, objGet]
  · simp [chatPayload, objGet]
  · intro k
    unfold questionPayload
    by_cases h4 : k = "timestamp"
    · subst h4
      rw [objGet_objSet_self, objGet_objSet_self]
    · rw [objGet_objSet_ne _ _ _ _ h4, objGet_objSet_ne _ _ _ _ h4]
      by_cases h3 : k = "university"
      · subst h3
        rw [objGet_objSet_self, objGet_objSet_self]
      · rw [objGet_objSet_ne _ _ _ _ h3, objGet_objSet_ne _ _ _ _ h3]
        by_cases h2 : k = "authorInitial"
        · subst h2
          rw [objGet_objSet_self, objGet_objSet_self]
        · rw [objGet_objSet_ne _ _ _ _ h2, objGet_objSet_ne _ _ _ _ h2]
          by_cases h1 : k = "author"
          · subst h1
            rw [objGet_objSet_self, objGet_objSet_self]
          · rw [objGet_objSet_ne _ _ _ _ h1, objGet_objSet_ne _ _ _ _ h1]
            exact hagree k h1 h2 h4
  · intro k
    unfold answerPayload
    by_cases h4 : k = "timestamp"
    · subst h4
      rw [objGet_objSet_self, objGet_objSet_self]
    · rw [objGet_objSet_ne _ _ _ _ h4, objGet_objSet_ne _ _ _ _ h4]
      by_cases h2 : k = "authorInitial"
      · subst h2
        rw [objGet_objSet_self, objGet_objSet_self]
      · rw [objGet_objSet_ne _ _ _ _ h2, objGet_objSet_ne _ _ _ _ h2]
        by_cases h1 : k = "author"
        · subst h1
          rw [objGet_objSet_self, objGet_objSet_self]
        · rw [objGet_objSet_ne _ _ _ _ h1, objGet_objSet_ne _ _ _ _ h1]
          exact hagree k h1 h2 h4
  · have hm := hagree "message" (by decide) (by decide) (by decide)
    simp [chatPayload, objGetD, hm]

/-- Witness for C9 at concrete inputs: two spoofing payloads that differ only
in author and timestamp; the stamped outbound question payload reads the
authenticated name, and the two outbound payloads agree on the title field. -/
theorem stamp_overrides_client_fields_witness :
    objGet (questionPayload uniUserA 7 exPayload1) "author" = some (.vstr "Alice") ∧
    objGet (questionPayload uniUserA 7 exPayload1) "title" =
      objGet (questionPayload uniUserA 7 exPayload2) "title" :=
  ⟨((stamp_overrides_client_fields uniUserA 7 exPayload1 exPayload2
      (by intro k h1 h2 h3; simp [exPayload1, exPayload2, objGet,
        Ne.symm h1, Ne.symm h3])).1).1,
   (stamp_overrides_client_fields uniUserA 7 exPayload1 exPayload2
      (by intro k h1 h2 h3; simp [exPayload1, exPayload2, objGet,
        Ne.symm h1, Ne.symm h3])).2.2.2.1 "title"⟩

end Uniconnect
